import Mathlib

/-!
Verification of the PassVault credential-cryptography subsystem.

This file gives a shallow embedding, in Lean 4, of the parts of the
PassVault repository that the specification's claims are about:

* `PasswordCrypto.encrypt` / `PasswordCrypto.decrypt` /
  `PasswordCrypto.generateMasterKey` (client crypto wrapper around the
  CryptoJS library),
* `PasswordGenerator.generate` and its helpers (random password
  generation),
* `analyzePasswordStrength` (the composition-based strength estimator),
* the server-side password-reset path: `DatabaseStorage.getUserByUsername`,
  `DatabaseStorage.updateUserPassword`, `DatabaseStorage.verifyRecoveryKey`
  and the `POST /api/reset-password` route handler.

Randomness is made explicit: every call that consumes `Math.random()` in
the source takes the drawn values as an explicit argument (a stream
`Nat → Nat` of draws, reduced modulo the relevant charset size, and a
`List Bool` of comparator outcomes for the shuffle), so that properties
can be proved for every possible draw of the randomness source.

Calls into libraries that are outside the repository (CryptoJS SHA-256 /
AES, the scrypt-style password hash in the absent `server/auth.ts`) are
modelled by executable stand-ins; each such definition carries a doc
comment saying exactly what is modelled and which of its properties the
theorems rely on.
-/

/-- Modelled from the spec: deterministic one-way hex hash standing in for
the CryptoJS `SHA256(...).toString()` library call (the library is not part
of the repository).  The theorems rely only on the properties the spec
states for key derivation: it is a deterministic function of its input
string and produces a fixed-length (64 hex characters) digest.  The
stand-in folds the characters into a 256-bit accumulator and renders it as
64 hex digits. -/
def sha256Hex (s : String) : String :=
  let acc := s.data.foldl (fun a c => (a * 131 + c.toNat + 17) % (2 ^ 256)) 7
  String.mk ((List.range 64).map
    (fun i => "0123456789abcdef".data.getD ((acc / 16 ^ (63 - i)) % 16) '0'))

namespace PasswordCrypto

/-- Embeds `PasswordCrypto.generateMasterKey` from `client/src/lib/crypto.ts`:
`CryptoJS.SHA256(username + password).toString()` — the hex SHA-256 digest of
the unseparated concatenation of username and password, with no input
validation of any kind. -/
def generateMasterKey (username : String) (password : String) : String :=
  sha256Hex (username ++ password)

/-- Modelled from the spec / the CryptoJS library: the result of
`CryptoJS.AES.decrypt(blob, key).toString(CryptoJS.enc.Utf8)` — either the
stringifier throws on malformed UTF-8 bytes (`malformed`) or it yields a
string (`text`, possibly empty). -/
inductive Utf8Result where
  | malformed : Utf8Result
  | text : String → Utf8Result

/-- Modelled from the spec / the CryptoJS library: a ciphertext blob as fed
to `CryptoJS.AES.decrypt`.  An honest blob produced by
`CryptoJS.AES.encrypt(msg, key)` records the random salt drawn for the call
together with the passphrase and message (`sealedBlob`); decrypting it with
the same passphrase recovers the message exactly.  `rawBlob f` stands for
an arbitrary base64 blob that was not produced by `encrypt` (for example a
tampered sealed blob), represented by its observable decryption behaviour
`f`: for each passphrase, CBC decryption plus Pkcs7 unpadding plus UTF-8
stringification of the blob's bytes yields either a malformed-UTF-8 throw
or some text, and because the cipher applies no authentication tag, every
such behaviour is realised by some byte blob. -/
inductive SealedBlob where
  | sealedBlob : Nat → String → String → SealedBlob
  | rawBlob : (String → Utf8Result) → SealedBlob

/-- Modelled from the spec / the CryptoJS library: the AES layer of
`decrypt` — derive the key from the passphrase and salt, CBC-decrypt,
unpad, and stringify as UTF-8.  On an honest blob with the matching
passphrase this yields exactly the sealed message; with a different
passphrase the bytes are garbage and the stringifier throws (the theorems
below do not depend on this branch); on a raw blob it yields whatever that
blob's bytes decrypt to. -/
def aesDecryptLayer : SealedBlob → String → Utf8Result
  | SealedBlob.sealedBlob _ key msg, masterKey =>
      if masterKey = key then Utf8Result.text msg else Utf8Result.malformed
  | SealedBlob.rawBlob f, masterKey => f masterKey

/-- Embeds `PasswordCrypto.encrypt` from `client/src/lib/crypto.ts`:
`CryptoJS.AES.encrypt(password, masterKey).toString()`.  The random salt the
library draws internally is passed explicitly.  (The `try/catch` in the
source never fires for string inputs.) -/
def encrypt (salt : Nat) (password : String) (masterKey : String) : SealedBlob :=
  SealedBlob.sealedBlob salt masterKey password

/-- Embeds `PasswordCrypto.decrypt` from `client/src/lib/crypto.ts`: run the
AES layer and stringify as UTF-8; if the stringifier throws, the `catch`
rethrows `Error('Failed to decrypt password')`; if the resulting string is
falsy (that is, empty) the wrapper throws `'Invalid decryption key'`, which
the same `catch` also converts to `'Failed to decrypt password'`; otherwise
the string is returned.  No other check of any kind is performed. -/
def decrypt (encryptedPassword : SealedBlob) (masterKey : String) : Except String String :=
  match aesDecryptLayer encryptedPassword masterKey with
  | Utf8Result.malformed => Except.error "Failed to decrypt password"
  | Utf8Result.text password =>
      if password = "" then Except.error "Failed to decrypt password"
      else Except.ok password

end PasswordCrypto

/-- Embeds the label component of the return value of
`analyzePasswordStrength` in `client/src/lib/crypto.ts`. -/
inductive StrengthLabel where
  | Weak : StrengthLabel
  | Moderate : StrengthLabel
  | Strong : StrengthLabel
  deriving DecidableEq, Repr

/-- Embeds the return value of `analyzePasswordStrength`
(`{score, label, color}`). -/
structure StrengthResult where
  score : Nat
  label : StrengthLabel
  color : String
  deriving DecidableEq, Repr

/-- Embeds the regex test `/[a-z]/.test(password)`. -/
def hasLowercase (s : String) : Bool :=
  s.data.any (fun c => 'a' ≤ c && c ≤ 'z')

/-- Embeds the regex test `/[A-Z]/.test(password)`. -/
def hasUppercase (s : String) : Bool :=
  s.data.any (fun c => 'A' ≤ c && c ≤ 'Z')

/-- Embeds the regex test `/[0-9]/.test(password)`. -/
def hasDigit (s : String) : Bool :=
  s.data.any (fun c => '0' ≤ c && c ≤ '9')

/-- Embeds the regex test `/[^A-Za-z0-9]/.test(password)`: some character
outside all three alphanumeric ranges. -/
def hasSymbol (s : String) : Bool :=
  s.data.any (fun c =>
    !(('A' ≤ c && c ≤ 'Z') || ('a' ≤ c && c ≤ 'z') || ('0' ≤ c && c ≤ '9')))

/-- Embeds the score accumulation of `analyzePasswordStrength` in
`client/src/lib/crypto.ts`: `score` starts at 0 and each of the six
conditions adds 1. -/
def strengthScore (password : String) : Nat :=
  (if 8 ≤ password.length then 1 else 0) +
  (if 12 ≤ password.length then 1 else 0) +
  (if hasLowercase password then 1 else 0) +
  (if hasUppercase password then 1 else 0) +
  (if hasDigit password then 1 else 0) +
  (if hasSymbol password then 1 else 0)

/-- Embeds `analyzePasswordStrength` from `client/src/lib/crypto.ts`:
compute the additive score, then label it `Weak` when `score <= 2`,
`Moderate` when `score <= 4`, `Strong` otherwise, with the corresponding
colour class. -/
def analyzePasswordStrength (password : String) : StrengthResult :=
  let score := strengthScore password
  if score ≤ 2 then ⟨score, StrengthLabel.Weak, "bg-red-500"⟩
  else if score ≤ 4 then ⟨score, StrengthLabel.Moderate, "bg-yellow-500"⟩
  else ⟨score, StrengthLabel.Strong, "bg-accent"⟩

/-- Restates, in the specification's words, the six scored conditions of
the strength estimator (for the refinement theorem of claim C6): the score
is the number of satisfied conditions among length≥8, length≥12,
contains-lowercase, contains-uppercase, contains-digit, contains-symbol. -/
def strengthConds (s : String) : List Bool :=
  [decide (8 ≤ s.length), decide (12 ≤ s.length),
   hasLowercase s, hasUppercase s, hasDigit s, hasSymbol s]

/-- Specification-side score of claim C6: +1 for each satisfied condition. -/
def specScore (s : String) : Nat :=
  (strengthConds s).count true

/-- Embeds `PasswordGeneratorOptions` from
`client/src/lib/password-generator.ts`. -/
structure PasswordGeneratorOptions where
  length : Nat
  uppercase : Bool
  lowercase : Bool
  numbers : Bool
  symbols : Bool
  deriving DecidableEq, Repr

namespace PasswordGenerator

/-- Embeds the private charset constant `UPPERCASE`. -/
def UPPERCASE : List Char := "ABCDEFGHIJKLMNOPQRSTUVWXYZ".data

/-- Embeds the private charset constant `LOWERCASE`. -/
def LOWERCASE : List Char := "abcdefghijklmnopqrstuvwxyz".data

/-- Embeds the private charset constant `NUMBERS`. -/
def NUMBERS : List Char := "0123456789".data

/-- Embeds the private charset constant `SYMBOLS`
(`'!@#$%^&*()_+-=[]{}|;:,.<>?'`). -/
def SYMBOLS : List Char := "!@#$%^&*()_+-=[]\x7b\x7d|;:,.<>?".data

/-- Embeds `getRandomChar(charset)`:
`charset[Math.floor(Math.random() * charset.length)]`.  The random draw is
passed explicitly as a natural number and reduced modulo the charset
length, which yields exactly the indices the source can draw (every index
strictly below the charset length, and no others).  The default character
is never used on the source's non-empty charsets. -/
def getRandomChar (rand : Nat) (charset : List Char) : Char :=
  charset.getD (rand % charset.length) ' '

/-- Embeds the charset concatenation at the top of `generate`: start from
the empty string and append each enabled class charset in the fixed order
uppercase, lowercase, numbers, symbols. -/
def buildCharset (o : PasswordGeneratorOptions) : List Char :=
  (if o.uppercase then UPPERCASE else []) ++
  (if o.lowercase then LOWERCASE else []) ++
  (if o.numbers then NUMBERS else []) ++
  (if o.symbols then SYMBOLS else [])

/-- The class charsets enabled by the options, in the order `generate`
pushes its guaranteed characters (uppercase, lowercase, numbers, symbols). -/
def guaranteedCharsets (o : PasswordGeneratorOptions) : List (List Char) :=
  (if o.uppercase then [UPPERCASE] else []) ++
  (if o.lowercase then [LOWERCASE] else []) ++
  (if o.numbers then [NUMBERS] else []) ++
  (if o.symbols then [SYMBOLS] else [])

/-- Draws one character from each charset in the list, consuming the draw
stream at consecutive indices starting from `i` (each `getRandomChar` call
in the source consumes one fresh `Math.random()` value). -/
def drawEach (i : Nat) (charsets : List (List Char)) (rands : Nat → Nat) : List Char :=
  match charsets with
  | [] => []
  | cs :: rest => getRandomChar (rands i) cs :: drawEach (i + 1) rest rands

/-- Embeds the `guaranteedChars` accumulation of `generate`: one character
from each enabled class, in order, using draws 0, 1, ... of the stream. -/
def guaranteedChars (o : PasswordGeneratorOptions) (rands : Nat → Nat) : List Char :=
  drawEach 0 (guaranteedCharsets o) rands

/-- Embeds the fill loop of `generate`:
`for (let i = guaranteedChars.length; i < options.length; i++)`, one
uniform draw from the full active charset per iteration. -/
def fillChars (charset : List Char) (rands : Nat → Nat) (start : Nat) (count : Nat) :
    List Char :=
  (List.range' start count).map (fun i => getRandomChar (rands i) charset)

/-- One step of the modelled shuffle: place the element at the front or at
the back according to one comparator outcome. -/
def coinPlace (b : Bool) (x : Char) (l : List Char) : List Char :=
  if b then x :: l else l.concat x

/-- Embeds `shuffleString`:
`str.split('').sort(() => Math.random() - 0.5).join('')`.  Sorting with an
inconsistent random comparator rearranges the elements into an
implementation-defined permutation of the input determined by the
comparator's outcomes; it never drops, duplicates or alters elements.  The
model therefore maps each sequence of comparator outcomes (`coins`) to a
permutation of the input list, covering every outcome sequence. -/
def shuffleString : List Bool → List Char → List Char
  | _, [] => []
  | [], x :: xs => x :: shuffleString [] xs
  | b :: bs, x :: xs => coinPlace b x (shuffleString bs xs)

/-- Embeds `PasswordGenerator.generate` from
`client/src/lib/password-generator.ts`: build the active charset, throw
`'At least one character type must be selected'` when it is empty,
otherwise push one guaranteed character per enabled class, fill the
remaining `options.length - guaranteedChars.length` positions with draws
from the full charset (the loop body never runs when
`options.length <= guaranteedChars.length`), and shuffle the result.  The
source performs no other validation — in particular none relating
`options.length` to the number of enabled classes. -/
def generate (o : PasswordGeneratorOptions) (rands : Nat → Nat) (coins : List Bool) :
    Except String (List Char) :=
  let charset := buildCharset o
  if charset.isEmpty then
    Except.error "At least one character type must be selected"
  else
    let g := guaranteedChars o rands
    let password := g ++ fillChars charset rands g.length (o.length - g.length)
    Except.ok (shuffleString coins password)

end PasswordGenerator

/-- Embeds the `users` table row of `shared/schema.ts` (the `createdAt`
timestamp column is irrelevant to every claim and omitted). -/
structure User where
  id : String
  username : String
  password : String
  recoveryKey : String
  deriving DecidableEq, Repr

/-- Embeds the `credentials` table row of `shared/schema.ts` (the two
timestamp columns are irrelevant to every claim and omitted). -/
structure Credential where
  id : String
  userId : String
  name : String
  url : Option String
  username : String
  encryptedPassword : String
  category : String
  deriving DecidableEq, Repr

/-- The database state seen by `DatabaseStorage`: the `users` and
`credentials` tables. -/
structure VaultDb where
  users : List User
  credentials : List Credential
  deriving DecidableEq, Repr

/-- Modelled from the spec: `server/auth.ts` is not in the source tree; the
spec says the recovery phrase is persisted only as a salted one-way
cryptographic verifier.  The stand-in hashes the phrase with the digest
stand-in under a domain tag; the theorems rely only on the verifier being a
deterministic one-way function of the phrase. -/
def recoveryVerifier (phrase : String) : String :=
  sha256Hex ("recovery:" ++ phrase)

/-- Modelled from the spec: `compareRecoveryKeys(supplied, stored)` from
the absent `server/auth.ts` — verify the supplied phrase only against the
stored one-way verifier, never by comparing plaintext phrases. -/
def compareRecoveryKeys (supplied : String) (stored : String) : Bool :=
  recoveryVerifier supplied == stored

/-- Modelled from the spec: `hashPassword(newPassword)` from the absent
`server/auth.ts` — the separate server-side password-hashing function
(distinct from key derivation) used to produce the stored password
verifier. -/
def hashPassword (password : String) : String :=
  sha256Hex ("scrypt:" ++ password)

namespace DatabaseStorage

/-- Embeds `DatabaseStorage.getUserByUsername` from `server/storage.ts`:
`select ... from users where users.username = username`, first row or
undefined. -/
def getUserByUsername (db : VaultDb) (username : String) : Option User :=
  db.users.find? (fun u => u.username == username)

/-- Embeds `DatabaseStorage.updateUserPassword` from `server/storage.ts`:
`update users set { password } where users.id = id` — sets exactly the
`password` column of the matching rows and touches nothing else. -/
def updateUserPassword (db : VaultDb) (id : String) (password : String) : VaultDb :=
  { db with
    users := db.users.map
      (fun u => if u.id == id then { u with password := password } else u) }

/-- Embeds `DatabaseStorage.verifyRecoveryKey` from `server/storage.ts`:
look the user up by username, return undefined when absent, otherwise
return the user exactly when `compareRecoveryKeys` accepts the supplied
phrase against the stored verifier. -/
def verifyRecoveryKey (db : VaultDb) (username : String) (recoveryKey : String) :
    Option User :=
  match getUserByUsername db username with
  | none => none
  | some user =>
      if compareRecoveryKeys recoveryKey user.recoveryKey then some user else none

end DatabaseStorage

/-- An HTTP response as produced by the route handlers in
`server/routes.ts`: status code and JSON message. -/
structure ApiResponse where
  status : Nat
  message : String
  deriving DecidableEq, Repr

/-- Embeds the `POST /api/reset-password` handler of `server/routes.ts`:
verify the `(username, recoveryKey)` pair; on failure respond
`400 'Invalid username or recovery key'` (one shared response for both the
unknown-username and the wrong-phrase case) leaving the database untouched;
on success hash `newPassword` with the server-side password hash, update
that user's password column, and respond `200 'Password reset
successfully'`. -/
def resetPasswordRoute (db : VaultDb) (username : String) (recoveryKey : String)
    (newPassword : String) : ApiResponse × VaultDb :=
  match DatabaseStorage.verifyRecoveryKey db username recoveryKey with
  | none => (⟨400, "Invalid username or recovery key"⟩, db)
  | some user =>
      (⟨200, "Password reset successfully"⟩,
        DatabaseStorage.updateUserPassword db user.id (hashPassword newPassword))

/-- Concrete one-user database used to witness the reset-path theorems:
alice's stored verifier is the verifier of her phrase, and she owns one
sealed credential record. -/
def dbAlice : VaultDb :=
  { users := [⟨"u1", "alice", hashPassword "OldPw1!", recoveryVerifier "apple banana cherry"⟩],
    credentials := [⟨"c1", "u1", "email", some "https://mail.example.com",
      "alice@example.com", "U2FsdGVkX1-opaque-blob", "other"⟩] }

/-- Concrete one-user database used to witness the non-enumeration theorem:
bob exists with a verifier for his own phrase; alice does not exist. -/
def dbBob : VaultDb :=
  { users := [⟨"u2", "bob", hashPassword "BobPw2!", recoveryVerifier "delta echo foxtrot"⟩],
    credentials := [] }

lemma sha256Hex_length (s : String) : (sha256Hex s).length = 64 := by
  simp [sha256Hex, String.length]

lemma scoreTerm_le_one (c : Prop) [Decidable c] : (if c then 1 else 0) ≤ 1 := by
  split <;> omega

lemma strengthScore_le_six (s : String) : strengthScore s ≤ 6 := by
  unfold strengthScore
  exact Nat.add_le_add (Nat.add_le_add (Nat.add_le_add (Nat.add_le_add
    (Nat.add_le_add (scoreTerm_le_one _) (scoreTerm_le_one _)) (scoreTerm_le_one _)) (scoreTerm_le_one _))
    (scoreTerm_le_one _)) (scoreTerm_le_one _)

lemma strengthScore_eq_specScore (s : String) : strengthScore s = specScore s := by
  cases h1 : decide (8 ≤ s.length) <;> cases h2 : decide (12 ≤ s.length) <;>
    cases h3 : hasLowercase s <;> cases h4 : hasUppercase s <;>
    cases h5 : hasDigit s <;> cases h6 : hasSymbol s <;>
    simp_all [strengthScore, specScore, strengthConds]

lemma analyze_eq (s : String) : analyzePasswordStrength s =
    if strengthScore s ≤ 2 then ⟨strengthScore s, StrengthLabel.Weak, "bg-red-500"⟩
    else if strengthScore s ≤ 4 then
      ⟨strengthScore s, StrengthLabel.Moderate, "bg-yellow-500"⟩
    else ⟨strengthScore s, StrengthLabel.Strong, "bg-accent"⟩ := rfl

lemma analyze_score (s : String) :
    (analyzePasswordStrength s).score = strengthScore s := by
  rw [analyze_eq s]; split_ifs <;> rfl

/-- C1 — the claim as stated fails on the code: sealing the empty string and
opening it with the very same key does not return the empty string; the
decrypt wrapper treats the falsy decoded string as a wrong-key symptom and
throws, so the round-trip breaks at P = "". -/
theorem roundtrip_empty_plaintext_fails :
    PasswordCrypto.decrypt (PasswordCrypto.encrypt 0 "" "key0") "key0" =
      Except.error "Failed to decrypt password" := rfl

/-- C1 (amended) — round-trip holds for every non-empty plaintext: for every
salt, every plaintext P ≠ "" and every key K, decrypting the result of
encrypting P under K with the same K returns exactly P. -/
theorem decrypt_encrypt_roundtrip (salt : Nat) (password masterKey : String)
    (h : password ≠ "") :
    PasswordCrypto.decrypt (PasswordCrypto.encrypt salt password masterKey) masterKey =
      Except.ok password := by
  simp [PasswordCrypto.decrypt, PasswordCrypto.encrypt, PasswordCrypto.aesDecryptLayer, h]

/-- C1 witness: the amended round-trip at a concrete non-empty plaintext. -/
theorem decrypt_encrypt_roundtrip_witness :
    PasswordCrypto.decrypt (PasswordCrypto.encrypt 0 "hunter2" "key1") "key1" =
      Except.ok "hunter2" :=
  decrypt_encrypt_roundtrip 0 "hunter2" "key1" (by decide)

/-- C2 — code-bug evidence: the decrypt wrapper performs no authentication
or integrity check whatsoever; whatever non-empty text the unauthenticated
AES-CBC layer produces for a blob that was never output by encrypt (for
example a tampered sealed blob) is returned silently as plaintext instead
of failing with a decryption error. -/
theorem decrypt_returns_unauthenticated_text :
    PasswordCrypto.decrypt
      (PasswordCrypto.SealedBlob.rawBlob (fun _ => PasswordCrypto.Utf8Result.text "garbage"))
      "correctKey" = Except.ok "garbage" := rfl

/-- C3 — code-bug evidence: opening the sealed empty string with the very
key that sealed it fails with exactly the same error value that a corrupt
blob (malformed UTF-8 decode) produces, so the code cannot distinguish
"plaintext happens to be empty" from "authentication failed", contrary to
the claim that open(seal("", K), K) succeeds and returns "". -/
theorem open_empty_secret_conflated_with_failure :
    PasswordCrypto.decrypt (PasswordCrypto.encrypt 1 "" "key3") "key3" =
      Except.error "Failed to decrypt password" ∧
    PasswordCrypto.decrypt
      (PasswordCrypto.SealedBlob.rawBlob (fun _ => PasswordCrypto.Utf8Result.malformed))
      "key3" = Except.error "Failed to decrypt password" := ⟨rfl, rfl⟩

/-- C6 — the strength estimator is the additive composition score: the score
equals the number of satisfied conditions among length≥8, length≥12,
contains-lowercase, contains-uppercase, contains-digit, contains-symbol
(hence is at most 6); the label is Weak exactly for scores 0–2, Moderate
exactly for 3–4 and Strong exactly for 5–6; and on the two cited inputs,
estimate("abc") scores 1 with label Weak and estimate("Passw0rd!123")
scores 6 with label Strong. -/
theorem strength_estimator_correct (s : String) :
    (analyzePasswordStrength s).score = specScore s ∧
    specScore s ≤ 6 ∧
    ((analyzePasswordStrength s).label = StrengthLabel.Weak ↔
      (analyzePasswordStrength s).score ≤ 2) ∧
    ((analyzePasswordStrength s).label = StrengthLabel.Moderate ↔
      3 ≤ (analyzePasswordStrength s).score ∧ (analyzePasswordStrength s).score ≤ 4) ∧
    ((analyzePasswordStrength s).label = StrengthLabel.Strong ↔
      5 ≤ (analyzePasswordStrength s).score) ∧
    analyzePasswordStrength "abc" = ⟨1, StrengthLabel.Weak, "bg-red-500"⟩ ∧
    analyzePasswordStrength "Passw0rd!123" = ⟨6, StrengthLabel.Strong, "bg-accent"⟩ := by
  have he := strengthScore_eq_specScore s
  have hb := strengthScore_le_six s
  refine ⟨he ▸ analyze_score s, he ▸ hb, ?_, ?_, ?_, by decide, by decide⟩ <;>
    rw [analyze_eq s] <;> split_ifs with h1 h2 <;> simp <;> omega

/-- C9 — the claim as stated fails on the code: generateMasterKey performs
no input validation at all; called with an empty username and an empty
password it is silently accepted and produces an ordinary 64-hex-character
key (the digest of the empty concatenation) instead of being rejected. -/
theorem generateMasterKey_accepts_empty :
    PasswordCrypto.generateMasterKey "" "" = sha256Hex "" ∧
    (PasswordCrypto.generateMasterKey "" "").length = 64 := ⟨rfl, by decide⟩

/-- C9 (amended) — generateMasterKey accepts every pair of strings, empty
ones included, and always returns the 64-hex-character digest of the
unseparated concatenation; no caller error is raised. -/
theorem generateMasterKey_no_validation (username password : String) :
    PasswordCrypto.generateMasterKey username password = sha256Hex (username ++ password) ∧
    (PasswordCrypto.generateMasterKey username password).length = 64 :=
  ⟨rfl, sha256Hex_length _⟩

/-- C10 — key-derivation collision: whenever two (username, password) pairs
have equal concatenations the derived keys coincide, because the key is the
digest of the unseparated concatenation; in particular the distinct
credential pairs ("ab", "c") and ("a", "bc") derive the identical key. -/
theorem generateMasterKey_concat_collision :
    (∀ u1 p1 u2 p2 : String, u1 ++ p1 = u2 ++ p2 →
      PasswordCrypto.generateMasterKey u1 p1 = PasswordCrypto.generateMasterKey u2 p2) ∧
    PasswordCrypto.generateMasterKey "ab" "c" = PasswordCrypto.generateMasterKey "a" "bc" ∧
    ("ab", "c") ≠ ("a", "bc") := by
  refine ⟨fun u1 p1 u2 p2 h => ?_, by decide, by decide⟩
  unfold PasswordCrypto.generateMasterKey
  rw [h]

/-- C10 witness: the collision consequence applied at the concrete pair of
distinct credentials. -/
theorem generateMasterKey_concat_collision_witness :
    PasswordCrypto.generateMasterKey "ab" "c" = PasswordCrypto.generateMasterKey "a" "bc" :=
  generateMasterKey_concat_collision.1 "ab" "c" "a" "bc" (by decide)

open PasswordGenerator in
lemma getRandomChar_mem (rand : Nat) (charset : List Char) (h : charset ≠ []) :
    getRandomChar rand charset ∈ charset := by
  unfold getRandomChar
  have hlt : rand % charset.length < charset.length :=
    Nat.mod_lt _ (List.length_pos.mpr h)
  rw [List.getD_eq_getElem _ _ hlt]
  exact List.getElem_mem hlt

open PasswordGenerator in
lemma shuffleString_perm (coins : List Bool) (l : List Char) :
    (shuffleString coins l).Perm l := by
  induction l generalizing coins with
  | nil => cases coins <;> simp [shuffleString]
  | cons x xs ih =>
    cases coins with
    | nil => simpa [shuffleString] using (ih []).cons x
    | cons b bs =>
      cases b with
      | true => simpa [shuffleString, coinPlace] using (ih bs).cons x
      | false =>
        have h1 : ((shuffleString bs xs).concat x).Perm (x :: shuffleString bs xs) := by
          rw [List.concat_eq_append]
          exact List.perm_append_singleton x _
        simpa [shuffleString, coinPlace] using h1.trans ((ih bs).cons x)

open PasswordGenerator in
lemma drawEach_length (i : Nat) (css : List (List Char)) (rands : Nat → Nat) :
    (drawEach i css rands).length = css.length := by
  induction css generalizing i with
  | nil => rfl
  | cons c rest ih => simp [drawEach, ih]

open PasswordGenerator in
lemma fillChars_length (cs : List Char) (rands : Nat → Nat) (start count : Nat) :
    (fillChars cs rands start count).length = count := by
  simp [fillChars]

open PasswordGenerator in
lemma buildCharset_eq_nil_iff (o : PasswordGeneratorOptions) :
    buildCharset o = [] ↔
      (o.uppercase = false ∧ o.lowercase = false ∧ o.numbers = false ∧ o.symbols = false) := by
  have hU : UPPERCASE ≠ [] := by decide
  have hL : LOWERCASE ≠ [] := by decide
  have hN : NUMBERS ≠ [] := by decide
  have hS : SYMBOLS ≠ [] := by decide
  rcases o with ⟨len, u, lo, nu, sy⟩
  cases u <;> cases lo <;> cases nu <;> cases sy <;> simp [buildCharset, hU, hL, hN, hS]

open PasswordGenerator in
lemma generate_eq_of_nonempty (o : PasswordGeneratorOptions) (rands : Nat → Nat)
    (coins : List Bool) (h : buildCharset o ≠ []) :
    generate o rands coins = Except.ok
      (shuffleString coins
        (guaranteedChars o rands ++
          fillChars (buildCharset o) rands (guaranteedChars o rands).length
            (o.length - (guaranteedChars o rands).length))) := by
  unfold generate
  rw [if_neg]
  simp [List.isEmpty_iff, h]

open PasswordGenerator in
lemma generate_error_iff (o : PasswordGeneratorOptions) (rands : Nat → Nat)
    (coins : List Bool) :
    (∃ e, generate o rands coins = Except.error e) ↔
      (o.uppercase = false ∧ o.lowercase = false ∧ o.numbers = false ∧ o.symbols = false) := by
  rw [← buildCharset_eq_nil_iff o]
  constructor
  · intro ⟨e, he⟩
    by_contra hne
    rw [generate_eq_of_nonempty o rands coins hne] at he
    exact Except.noConfusion he
  · intro hnil
    refine ⟨"At least one character type must be selected", ?_⟩
    unfold generate
    rw [if_pos]
    rw [hnil]
    rfl

open PasswordGenerator in
lemma generate_ok_length (o : PasswordGeneratorOptions) (rands : Nat → Nat)
    (coins : List Bool) (pw : List Char) (h : generate o rands coins = Except.ok pw) :
    pw.length = (guaranteedCharsets o).length +
      (o.length - (guaranteedCharsets o).length) := by
  by_cases hcs : buildCharset o = []
  · unfold generate at h
    rw [if_pos] at h
    · exact Except.noConfusion h
    · rw [hcs]; rfl
  · rw [generate_eq_of_nonempty o rands coins hcs] at h
    have hpw := (Except.ok.inj h).symm
    subst hpw
    rw [(shuffleString_perm _ _).length_eq, List.length_append, fillChars_length,
      guaranteedChars, drawEach_length]

/-- C4 — the claim as stated fails on the code: the policy
{length: 2, uppercase, lowercase, numbers} requests 2 characters from 3
enabled classes, yet generate does not fail: it returns the 3-character
password built from the guaranteed class draws (here 'A', 'a', '0' for the
all-zero draw stream and no comparator swaps). -/
theorem generate_short_policy_returns_password :
    PasswordGenerator.generate ⟨2, true, true, true, false⟩ (fun _ => 0) [] =
      Except.ok ['A', 'a', '0'] ∧
    (PasswordGenerator.generate ⟨2, true, true, true, false⟩ (fun _ => 0) []).isOk = true :=
  ⟨rfl, rfl⟩

/-- C4 (amended) — generate fails (with the invalid-policy error) exactly
when no character class flag is enabled; when the requested length is
strictly less than the number of enabled classes it does not fail but
returns a password whose length is the number of enabled classes, thereby
exceeding the requested length instead of raising InvalidPolicyError. -/
theorem generate_policy_validation (o : PasswordGeneratorOptions) (rands : Nat → Nat)
    (coins : List Bool) :
    ((∃ e, PasswordGenerator.generate o rands coins = Except.error e) ↔
      (o.uppercase = false ∧ o.lowercase = false ∧ o.numbers = false ∧ o.symbols = false)) ∧
    (∀ pw, PasswordGenerator.generate o rands coins = Except.ok pw →
      o.length < (PasswordGenerator.guaranteedCharsets o).length →
      pw.length = (PasswordGenerator.guaranteedCharsets o).length) := by
  refine ⟨generate_error_iff o rands coins, fun pw h hlt => ?_⟩
  have hlen := generate_ok_length o rands coins pw h
  omega

/-- C4 witness: the all-flags-false policy produces the policy error, and
the too-short three-class policy produces a password of length 3. -/
theorem generate_policy_validation_witness :
    (∃ e, PasswordGenerator.generate ⟨8, false, false, false, false⟩ (fun _ => 1) [] =
      Except.error e) ∧
    (['B', 'b', '1'] : List Char).length =
      (PasswordGenerator.guaranteedCharsets ⟨2, true, true, true, false⟩).length :=
  ⟨(generate_policy_validation ⟨8, false, false, false, false⟩ (fun _ => 1) []).1.mpr
      ⟨rfl, rfl, rfl, rfl⟩,
    (generate_policy_validation ⟨2, true, true, true, false⟩ (fun _ => 1) []).2
      ['B', 'b', '1'] rfl (by decide)⟩

/-- C5 — generator guarantees: for the policy {length: 16, uppercase,
lowercase, numbers, symbols}, for every draw of the randomness source (any
stream of character draws and any sequence of shuffle-comparator outcomes)
generate succeeds with a password of length exactly 16 containing at least
one uppercase letter, one lowercase letter, one digit and one symbol: the
final shuffle is a permutation of the drawn characters, so it preserves
length and class membership. -/
theorem generate_guarantees_16 (rands : Nat → Nat) (coins : List Bool) :
    ∃ pw, PasswordGenerator.generate ⟨16, true, true, true, true⟩ rands coins =
        Except.ok pw ∧
      pw.length = 16 ∧
      (∃ c ∈ pw, c ∈ PasswordGenerator.UPPERCASE) ∧
      (∃ c ∈ pw, c ∈ PasswordGenerator.LOWERCASE) ∧
      (∃ c ∈ pw, c ∈ PasswordGenerator.NUMBERS) ∧
      (∃ c ∈ pw, c ∈ PasswordGenerator.SYMBOLS) := by
  have hcs : PasswordGenerator.buildCharset ⟨16, true, true, true, true⟩ ≠ [] := by decide
  refine ⟨_, generate_eq_of_nonempty ⟨16, true, true, true, true⟩ rands coins hcs,
    ?_, ?_, ?_, ?_, ?_⟩
  · rw [(shuffleString_perm _ _).length_eq, List.length_append, fillChars_length,
      PasswordGenerator.guaranteedChars, drawEach_length]
    rfl
  · refine ⟨PasswordGenerator.getRandomChar (rands 0) PasswordGenerator.UPPERCASE,
      ((shuffleString_perm _ _).mem_iff).mpr (List.mem_append_left _ ?_),
      getRandomChar_mem _ _ (by decide)⟩
    simp [PasswordGenerator.guaranteedChars, PasswordGenerator.guaranteedCharsets,
      PasswordGenerator.drawEach]
  · refine ⟨PasswordGenerator.getRandomChar (rands 1) PasswordGenerator.LOWERCASE,
      ((shuffleString_perm _ _).mem_iff).mpr (List.mem_append_left _ ?_),
      getRandomChar_mem _ _ (by decide)⟩
    simp [PasswordGenerator.guaranteedChars, PasswordGenerator.guaranteedCharsets,
      PasswordGenerator.drawEach]
  · refine ⟨PasswordGenerator.getRandomChar (rands 2) PasswordGenerator.NUMBERS,
      ((shuffleString_perm _ _).mem_iff).mpr (List.mem_append_left _ ?_),
      getRandomChar_mem _ _ (by decide)⟩
    simp [PasswordGenerator.guaranteedChars, PasswordGenerator.guaranteedCharsets,
      PasswordGenerator.drawEach]
  · refine ⟨PasswordGenerator.getRandomChar (rands 3) PasswordGenerator.SYMBOLS,
      ((shuffleString_perm _ _).mem_iff).mpr (List.mem_append_left _ ?_),
      getRandomChar_mem _ _ (by decide)⟩
    simp [PasswordGenerator.guaranteedChars, PasswordGenerator.guaranteedCharsets,
      PasswordGenerator.drawEach]

lemma updateUsers_map_field (users : List User) (id pw : String) (f : User → String)
    (hf : ∀ u : User, f { u with password := pw } = f u) :
    (users.map (fun u => if u.id == id then { u with password := pw } else u)).map f =
      users.map f := by
  induction users with
  | nil => rfl
  | cons u us ih =>
    simp only [List.map_cons]
    rw [ih]
    congr 1
    split
    · exact hf u
    · rfl

/-- C7 — recovery-reset frame: whenever the reset-password route succeeds
(responds with status 200), the resulting database keeps the credentials
table — and with it every stored encryptedPassword blob — byte-for-byte
unchanged, and keeps every account's id, username and recovery verifier
unchanged; only the password-hash column of the matched account is
written. -/
theorem resetPassword_frame (db : VaultDb) (username recoveryKey newPassword : String)
    (h : (resetPasswordRoute db username recoveryKey newPassword).1.status = 200) :
    ((resetPasswordRoute db username recoveryKey newPassword).2.credentials =
      db.credentials) ∧
    ((resetPasswordRoute db username recoveryKey newPassword).2.users.map User.id =
      db.users.map User.id) ∧
    ((resetPasswordRoute db username recoveryKey newPassword).2.users.map User.username =
      db.users.map User.username) ∧
    ((resetPasswordRoute db username recoveryKey newPassword).2.users.map User.recoveryKey =
      db.users.map User.recoveryKey) := by
  cases hv : DatabaseStorage.verifyRecoveryKey db username recoveryKey with
  | none =>
    have h400 : (resetPasswordRoute db username recoveryKey newPassword).1.status = 400 := by
      simp [resetPasswordRoute, hv]
    rw [h400] at h
    omega
  | some user =>
    have hr : resetPasswordRoute db username recoveryKey newPassword =
        (⟨200, "Password reset successfully"⟩,
          DatabaseStorage.updateUserPassword db user.id (hashPassword newPassword)) := by
      simp [resetPasswordRoute, hv]
    rw [hr]
    refine ⟨rfl, ?_, ?_, ?_⟩ <;>
      · simp only [DatabaseStorage.updateUserPassword]
        exact updateUsers_map_field _ _ _ _ (fun u => rfl)

/-- C7 witness: a concrete successful reset for alice leaves her sealed
credential record untouched. -/
theorem resetPassword_frame_witness :
    (resetPasswordRoute dbAlice "alice" "apple banana cherry" "NewPw9!").1.status = 200 ∧
    (resetPasswordRoute dbAlice "alice" "apple banana cherry" "NewPw9!").2.credentials =
      dbAlice.credentials :=
  ⟨by decide,
    (resetPassword_frame dbAlice "alice" "apple banana cherry" "NewPw9!" (by decide)).1⟩

/-- C8 — recovery non-enumeration (content): the reset-password route
produces the identical response — same 400 status and same message — both
when the username does not exist and when the username exists but the
supplied phrase fails verification against the stored verifier, so the
error content does not reveal whether the username exists. -/
theorem resetPassword_non_enumeration (db : VaultDb)
    (u1 rk1 np1 u2 rk2 np2 : String)
    (h1 : DatabaseStorage.getUserByUsername db u1 = none)
    (h2 : ∃ v, DatabaseStorage.getUserByUsername db u2 = some v ∧
      compareRecoveryKeys rk2 v.recoveryKey = false) :
    (resetPasswordRoute db u1 rk1 np1).1 = (resetPasswordRoute db u2 rk2 np2).1 ∧
    (resetPasswordRoute db u1 rk1 np1).1 = ⟨400, "Invalid username or recovery key"⟩ := by
  obtain ⟨v, hv, hc⟩ := h2
  simp [resetPasswordRoute, DatabaseStorage.verifyRecoveryKey, h1, hv, hc]

/-- C8 witness: the absent username "alice" and the present username "bob"
with a wrong phrase receive the identical concrete response. -/
theorem resetPassword_non_enumeration_witness :
    (resetPasswordRoute dbBob "alice" "any phrase" "npw").1 =
      (resetPasswordRoute dbBob "bob" "wrong phrase" "npw2").1 ∧
    (resetPasswordRoute dbBob "alice" "any phrase" "npw").1 =
      ⟨400, "Invalid username or recovery key"⟩ :=
  resetPassword_non_enumeration dbBob "alice" "any phrase" "npw" "bob" "wrong phrase" "npw2"
    (by decide)
    ⟨⟨"u2", "bob", hashPassword "BobPw2!", recoveryVerifier "delta echo foxtrot"⟩,
      by decide, by decide⟩
